import Mathlib

/-!
Verification of the `gcp-profiles` vault (`src/gcp_auth/vault.py`).

The vault owns a profiles directory (`~/.config/gcp-auth/profiles`), each
subdirectory being a profile holding at most one credential file
(`application_default_credentials.json`), plus the external gcloud state:
the set of gcloud configurations, the active configuration, and the
Active Credential Slot (`~/.config/gcloud/application_default_credentials.json`).

We embed the filesystem-resident state shallowly: credential blobs are byte
lists compared for equality (byte-for-byte copies), the profiles directory is
an optional list of entries (`none` = directory absent), and each entry is
either a profile subdirectory (with its optional credential file) or a plain
file (the data model allows non-directory entries, which `list_profiles`
ignores).  External effects of `gcloud` subprocesses are modelled from their
documented behaviour: `config configurations create` fails iff the name
already exists and activates the new configuration on success;
`config configurations activate` is invoked through `run_command` without
`reraise`, so a failure (configuration absent) is tolerated and leaves the
gcloud state unchanged.  The interactive logins are parametrised by an
environment (`RegisterEnv`) saying what the ADC file contains afterwards, and
a `copyFails` flag models an environmental failure (e.g. permission error) of
`shutil.copy` in `_override_adc`.  `run_command` itself lives in
`gcp_auth/utils.py`, which is not part of the sources here; its behaviour
(raise on non-zero exit iff `reraise`) is taken from the specification of the
Process Runner.

`pathlib` drops empty path components, so `PROFILES_DIR / ""` is
`PROFILES_DIR` itself; `profilePath` reflects this.  Names are otherwise
treated as single ordinary path components (no separators, not `.` or `..`);
theorems about arbitrary names restrict to this domain where it matters.
-/

/-- A credential blob: opaque bytes, copied verbatim. -/
abbrev Blob := List Nat

/-- `Profile` dataclass: identified solely by its name. -/
structure Profile where
  name : String
deriving DecidableEq, Repr

/-- One entry of the profiles directory: a profile subdirectory (with its
optional captured credential file) or a non-directory entry. -/
inductive Entry where
  | dir (name : String) (cred : Option Blob)
  | file (name : String) (content : Blob)
deriving DecidableEq, Repr

def Entry.name : Entry → String
  | .dir n _ => n
  | .file n _ => n

def Entry.isDir : Entry → Bool
  | .dir _ _ => true
  | .file _ _ => false

/-- `ADC_FILENAME` constant from `GCPAuthVault.__init__`. -/
def ADC_FILENAME : String := "application_default_credentials.json"

/-- The filesystem-resident and gcloud-resident state the vault mutates. -/
structure VaultState where
  /-- Entries of `PROFILES_DIR`; `none` means the directory is absent. -/
  profiles : Option (List Entry)
  /-- Existing gcloud configuration names. -/
  configs : List String
  /-- The active gcloud configuration. -/
  activeConfig : Option String
  /-- Content of `DEFAULT_ADC_PATH` (the Active Credential Slot); `none` = absent. -/
  adcSlot : Option Blob
deriving DecidableEq, Repr

/-- The path `PROFILES_DIR / name`: `pathlib` drops empty components, so the
empty name resolves to the profiles directory itself. -/
inductive ProfilePath where
  | profilesRoot
  | entry (n : String)
deriving DecidableEq, Repr

def profilePath (name : String) : ProfilePath :=
  if name = "" then .profilesRoot else .entry name

/-- Find the entry of the profiles directory with the given name. -/
def VaultState.lookupEntry (s : VaultState) (n : String) : Option Entry :=
  match s.profiles with
  | none => none
  | some es => es.find? (fun e => e.name = n)

/-- `Path.exists()` at a resolved profile path (true for files as well). -/
def VaultState.pathExists (s : VaultState) : ProfilePath → Bool
  | .profilesRoot => s.profiles.isSome
  | .entry n => (s.lookupEntry n).isSome

/-- `credentials.exists()` where `credentials = profile_dir / ADC_FILENAME`. -/
def VaultState.credEntryExists (s : VaultState) : ProfilePath → Bool
  | .profilesRoot => (s.lookupEntry ADC_FILENAME).isSome
  | .entry n =>
    match s.lookupEntry n with
    | some (.dir _ c) => c.isSome
    | _ => false

/-- Content of the regular file at `profile_dir / ADC_FILENAME`, if any. -/
def VaultState.credBlob (s : VaultState) : ProfilePath → Option Blob
  | .profilesRoot =>
    match s.lookupEntry ADC_FILENAME with
    | some (.file _ b) => some b
    | _ => none
  | .entry n =>
    match s.lookupEntry n with
    | some (.dir _ c) => c
    | _ => none

/-- Overwrite of the credential file inside the profile directory named `n`:
other entries are untouched. -/
def Entry.fillCred (n : String) (b : Blob) : Entry → Entry
  | .dir m c => if m = n then .dir m (some b) else .dir m c
  | .file m c => .file m c

/-- Overwrite of the plain file `PROFILES_DIR / ADC_FILENAME` (the target
resolved for the empty profile name); `shutil.copy` clobbers an existing
regular file.  `register` only reaches this after step 1 has emptied the
profiles directory, so a directory occupying this name (where the real copy
would raise) never arises on that path. -/
def upsertRootCred (es : List Entry) (b : Blob) : List Entry :=
  if es.any (fun e => e.name = ADC_FILENAME) then
    es.map (fun e => if e.name = ADC_FILENAME then .file ADC_FILENAME b else e)
  else es ++ [.file ADC_FILENAME b]

/-- `shutil.copy(DEFAULT_ADC_PATH, profile_dir / ADC_FILENAME)`: write blob `b`
as the credential file under the resolved profile path. -/
def VaultState.writeCredAt (s : VaultState) : ProfilePath → Blob → VaultState
  | .entry n, b =>
    { s with profiles := s.profiles.map (fun es => es.map (Entry.fillCred n b)) }
  | .profilesRoot, b =>
    { s with profiles := s.profiles.map (fun es => upsertRootCred es b) }

/-- Errors surfaced by the vault, each terminal for the current operation
(raised exception or `sys.exit(1)`). -/
inductive VaultError where
  /-- `ValueError` from `_create_clean_profile`. -/
  | profileAlreadyExists (name : String)
  /-- `sys.exit(1)` after printing the name and the available profiles. -/
  | profileNotFound (name : String) (available : List String)
  /-- `sys.exit(1)`: no credentials file for the profile. -/
  | credentialsMissing (name : String)
  /-- `sys.exit(1)` in `_gcloud_adc_login`: ADC file was not generated. -/
  | credentialsNotGenerated
  /-- `sys.exit(1)` in `_override_adc` when `shutil.copy` raises. -/
  | copyFailed
  /-- `shutil.rmtree` on a non-directory raises `NotADirectoryError`. -/
  | notADirectory (name : String)
  /-- `mkdir` with the parent directory missing raises. -/
  | ioError (name : String)
deriving DecidableEq, Repr

/-- Outcome of a vault operation: success or a terminal error, each with the
filesystem/gcloud state at that point. -/
inductive OpResult where
  | ok (s : VaultState)
  | err (e : VaultError) (s : VaultState)
deriving DecidableEq, Repr

def OpResult.state : OpResult → VaultState
  | .ok s => s
  | .err _ s => s

def OpResult.isOk : OpResult → Bool
  | .ok _ => true
  | .err _ _ => false

/-- External actions performed during `register`, in order. -/
inductive VAction where
  /-- `gcloud config configurations create <n>` was attempted. -/
  | configCreate (n : String)
  /-- The warning that configuration `n` already exists was printed. -/
  | warnConfigExists (n : String)
  /-- `gcloud config configurations activate <n>` ran. -/
  | configActivate (n : String)
  /-- `gcloud auth login` ran (`_gcloud_login`). -/
  | authLogin
  /-- `gcloud auth application-default login` ran (`_gcloud_adc_login`). -/
  | adcLogin
  /-- `_capture_adc` copied the ADC file into profile `n`. -/
  | captureAdc (n : String)
deriving DecidableEq, Repr

/-- What the External Login Provider leaves at `DEFAULT_ADC_PATH` after
`gcloud auth application-default login` (`none`: the file is absent, the
login failed silently). -/
structure RegisterEnv where
  adcAfterLogin : Option Blob
deriving DecidableEq, Repr

/-- `GCPAuthVault.ensure_vault`: create the profiles directory if absent. -/
def ensure_vault (s : VaultState) : VaultState :=
  match s.profiles with
  | none => { s with profiles := some [] }
  | some _ => s

/-- `GCPAuthVault._create_clean_profile`: fail `ValueError` if the resolved
profile path exists and `force` is false; with `force`, `shutil.rmtree` it
first; then `mkdir(exist_ok=True)`. -/
def create_clean_profile (s : VaultState) (name : String) (force : Bool) : OpResult :=
  let pd := profilePath name
  if s.pathExists pd then
    if force then
      match pd with
      | .profilesRoot => .ok { s with profiles := some [] }
      | .entry n =>
        match s.lookupEntry n with
        | some (.file _ _) => .err (.notADirectory n) s
        | _ => .ok { s with profiles := s.profiles.map (fun es =>
            es.filter (fun e => e.name ≠ n) ++ [.dir n none]) }
    else .err (.profileAlreadyExists name) s
  else
    match pd with
    | .profilesRoot => .ok { s with profiles := some [] }
    | .entry n =>
      match s.profiles with
      | none => .err (.ioError n) s
      | some es => .ok { s with profiles := some (es ++ [.dir n none]) }

/-- `GCPAuthVault._create_gcloud_configuration`: attempt
`gcloud config configurations create <n>` with `reraise=True`; on
`CalledProcessError` (the configuration already exists) print a warning and
activate the existing configuration instead, returning whether a new
configuration was created.  `gcloud` activates a newly created
configuration. -/
def create_gcloud_configuration (s : VaultState) (n : String) :
    Bool × VaultState × List VAction :=
  if s.configs.contains n then
    (false, { s with activeConfig := some n },
      [.configCreate n, .warnConfigExists n, .configActivate n])
  else
    (true, { s with configs := n :: s.configs, activeConfig := some n },
      [.configCreate n])

/-- `GCPAuthVault.register`: clean profile directory, create-or-activate the
gcloud configuration, standard login only when a new configuration was
created, ADC login (fatal `sys.exit(1)` if `DEFAULT_ADC_PATH` is then
absent), then capture the ADC file into the profile directory. -/
def register (s : VaultState) (p : Profile) (force : Bool) (env : RegisterEnv) :
    OpResult × List VAction :=
  match create_clean_profile s p.name force with
  | .err e s1 => (.err e s1, [])
  | .ok s1 =>
    let step2 := create_gcloud_configuration s1 p.name
    let tr := if step2.1 then step2.2.2 ++ [.authLogin] else step2.2.2
    let s3 : VaultState := { step2.2.1 with adcSlot := env.adcAfterLogin }
    let tr := tr ++ [.adcLogin]
    match env.adcAfterLogin with
    | none => (.err .credentialsNotGenerated s3, tr)
    | some b => (.ok (s3.writeCredAt (profilePath p.name) b), tr ++ [.captureAdc p.name])

/-- `GCPAuthVault.list_profiles`: empty if the profiles directory is absent,
otherwise one `Profile` per directory entry (non-directories ignored). -/
def list_profiles (s : VaultState) : List Profile :=
  match s.profiles with
  | none => []
  | some es => (es.filter Entry.isDir).map (fun e => Profile.mk e.name)

/-- `GCPAuthVault._switch_gcloud_configuration`: runs
`gcloud config configurations activate <n>` through `run_command` without
`reraise`, so a failure (configuration absent) is tolerated and changes
nothing. -/
def switch_gcloud_configuration (s : VaultState) (n : String) : VaultState :=
  if s.configs.contains n then { s with activeConfig := some n } else s

/-- `GCPAuthVault.set_active_profile`: check the profile directory exists
(else exit listing available profiles), check the credential file exists
(else exit), switch the gcloud configuration, then `_override_adc` copies the
stored credentials over the Active Credential Slot (`sys.exit(1)` if the copy
raises; copying a directory also raises and is caught the same way). -/
def set_active_profile (s : VaultState) (name : String) (copyFails : Bool) : OpResult :=
  let pd := profilePath name
  if s.pathExists pd then
    if s.credEntryExists pd then
      let s1 := switch_gcloud_configuration s name
      if copyFails then .err .copyFailed s1
      else
        match s1.credBlob pd with
        | some b => .ok { s1 with adcSlot := some b }
        | none => .err .copyFailed s1
    else .err (.credentialsMissing name) s
  else .err (.profileNotFound name ((list_profiles s).map Profile.name)) s

/-- `GCPAuthVault.delete_profile`: exit with "not found" (listing available
profiles) if the resolved path is absent; otherwise `shutil.rmtree` it
(raising `NotADirectoryError` on a non-directory entry). -/
def delete_profile (s : VaultState) (name : String) : OpResult :=
  let pd := profilePath name
  if s.pathExists pd then
    match pd with
    | .profilesRoot => .ok { s with profiles := none }
    | .entry n =>
      match s.lookupEntry n with
      | some (.file _ _) => .err (.notADirectory n) s
      | _ => .ok { s with profiles := s.profiles.map (fun es =>
          es.filter (fun e => e.name ≠ n)) }
  else .err (.profileNotFound name ((list_profiles s).map Profile.name)) s

/-- A single ordinary path component: non-empty, no separator, not a dot
directory. -/
def isOrdinaryComponent (n : String) : Bool :=
  n ≠ "" && !(n.toList.contains '/') && n ≠ "." && n ≠ ".."

example : list_profiles ⟨some [.dir "a" (some [1, 2]), .file "x" []], [], none, none⟩
    = [⟨"a"⟩] := by decide

example : delete_profile ⟨some [.dir "a" none], [], none, none⟩ "" =
    .ok ⟨none, [], none, none⟩ := by decide

example :
    (register ⟨some [], [], none, none⟩ ⟨"a"⟩ false ⟨some [7]⟩).1 =
      .ok ⟨some [.dir "a" (some [7])], ["a"], some "a", some [7]⟩ := by decide

theorem Entry.name_fillCred (n : String) (b : Blob) (e : Entry) :
    (Entry.fillCred n b e).name = e.name := by
  cases e with
  | dir m c => by_cases h : m = n <;> simp [Entry.fillCred, Entry.name, h]
  | file m c => rfl

theorem lookupEntry_writeCredAt (s : VaultState) (n m : String) (b : Blob) :
    (s.writeCredAt (.entry n) b).lookupEntry m =
      (s.lookupEntry m).map (Entry.fillCred n b) := by
  cases hp : s.profiles with
  | none => simp [VaultState.writeCredAt, VaultState.lookupEntry, hp]
  | some es =>
    simp only [VaultState.writeCredAt, hp, Option.map_some', VaultState.lookupEntry,
      List.find?_map]
    have hpred : ((fun e => decide (e.name = m)) ∘ Entry.fillCred n b)
        = (fun e : Entry => decide (e.name = m)) := by
      funext e
      simp [Function.comp, Entry.name_fillCred]
    rw [hpred]

theorem writeCredAt_frame (s : VaultState) (pd : ProfilePath) (b : Blob) :
    (s.writeCredAt pd b).configs = s.configs ∧
    (s.writeCredAt pd b).activeConfig = s.activeConfig ∧
    (s.writeCredAt pd b).adcSlot = s.adcSlot := by
  cases pd <;> simp [VaultState.writeCredAt]

theorem create_gcloud_configuration_shape (s : VaultState) (n : String) :
    (create_gcloud_configuration s n).2.1.profiles = s.profiles ∧
    (create_gcloud_configuration s n).2.1.adcSlot = s.adcSlot ∧
    (create_gcloud_configuration s n).2.1.activeConfig = some n ∧
    (create_gcloud_configuration s n).2.1.configs.contains n = true := by
  by_cases h : n ∈ s.configs <;>
    simp [create_gcloud_configuration, h]

/-- `find?` for a name over a filtered-out name followed by a fresh entry of
that name. -/
theorem find_name_filter_append (es : List Entry) (n : String) (e : Entry)
    (he : e.name = n) :
    ((es.filter (fun x => !decide (x.name = n))) ++ [e]).find?
      (fun x => x.name = n) = some e := by
  induction es with
  | nil => simp [he]
  | cons a es ih =>
    by_cases h : a.name = n
    · simpa [h] using ih
    · simpa [h] using ih

theorem create_clean_ok_frame (s s1 : VaultState) (n : String) (force : Bool)
    (h : create_clean_profile s n force = .ok s1) :
    s1.configs = s.configs ∧ s1.activeConfig = s.activeConfig ∧
    s1.adcSlot = s.adcSlot := by
  by_cases hn : n = ""
  · subst hn
    cases hp : s.profiles with
    | none =>
      simp [create_clean_profile, profilePath, VaultState.pathExists, hp] at h
      subst h
      exact ⟨rfl, rfl, rfl⟩
    | some es =>
      cases force with
      | true =>
        simp [create_clean_profile, profilePath, VaultState.pathExists, hp] at h
        subst h
        exact ⟨rfl, rfl, rfl⟩
      | false =>
        simp [create_clean_profile, profilePath, VaultState.pathExists, hp] at h
  · cases hp : s.profiles with
    | none =>
      simp [create_clean_profile, profilePath, hn, VaultState.pathExists,
        VaultState.lookupEntry, hp] at h
    | some es =>
      cases hf : es.find? (fun e => e.name = n) with
      | none =>
        simp [create_clean_profile, profilePath, hn, VaultState.pathExists,
          VaultState.lookupEntry, hp, hf] at h
        subst h
        exact ⟨rfl, rfl, rfl⟩
      | some e =>
        cases e with
        | file m c =>
          cases force <;>
            simp [create_clean_profile, profilePath, hn, VaultState.pathExists,
              VaultState.lookupEntry, hp, hf] at h
        | dir m c =>
          cases force with
          | false =>
            simp [create_clean_profile, profilePath, hn, VaultState.pathExists,
              VaultState.lookupEntry, hp, hf] at h
          | true =>
            simp [create_clean_profile, profilePath, hn, VaultState.pathExists,
              VaultState.lookupEntry, hp, hf] at h
            subst h
            exact ⟨rfl, rfl, rfl⟩

theorem create_clean_ok_lookup (s s1 : VaultState) (n : String) (force : Bool)
    (hn : n ≠ "") (h : create_clean_profile s n force = .ok s1) :
    s1.lookupEntry n = some (.dir n none) := by
  cases hp : s.profiles with
  | none =>
    simp [create_clean_profile, profilePath, hn, VaultState.pathExists,
      VaultState.lookupEntry, hp] at h
  | some es =>
    cases hf : es.find? (fun e => e.name = n) with
    | none =>
      simp [create_clean_profile, profilePath, hn, VaultState.pathExists,
        VaultState.lookupEntry, hp, hf] at h
      subst h
      simp only [VaultState.lookupEntry, List.find?_append, hf, Option.none_or]
      simp [Entry.name]
    | some e =>
      cases e with
      | file m c =>
        cases force <;>
          simp [create_clean_profile, profilePath, hn, VaultState.pathExists,
            VaultState.lookupEntry, hp, hf] at h
      | dir m c =>
        cases force with
        | false =>
          simp [create_clean_profile, profilePath, hn, VaultState.pathExists,
            VaultState.lookupEntry, hp, hf] at h
        | true =>
          simp [create_clean_profile, profilePath, hn, VaultState.pathExists,
            VaultState.lookupEntry, hp, hf] at h
          subst h
          simp only [VaultState.lookupEntry, Option.map_some']
          exact find_name_filter_append es n (.dir n none) rfl

theorem create_clean_ok_root (s s1 : VaultState) (force : Bool)
    (h : create_clean_profile s "" force = .ok s1) : s1.profiles = some [] := by
  cases hp : s.profiles with
  | none =>
    simp [create_clean_profile, profilePath, VaultState.pathExists, hp] at h
    subst h
    rfl
  | some es =>
    cases force with
    | true =>
      simp [create_clean_profile, profilePath, VaultState.pathExists, hp] at h
      subst h
      rfl
    | false =>
      simp [create_clean_profile, profilePath, VaultState.pathExists, hp] at h

theorem lookupEntry_eq_of_profiles (s t : VaultState) (h : s.profiles = t.profiles)
    (m : String) : s.lookupEntry m = t.lookupEntry m := by
  unfold VaultState.lookupEntry
  rw [h]

theorem register_ok_inversion (s s1 : VaultState) (n : String) (force : Bool)
    (env : RegisterEnv) (tr : List VAction)
    (h : register s ⟨n⟩ force env = (.ok s1, tr)) :
    ∃ sc b, create_clean_profile s n force = .ok sc ∧ env.adcAfterLogin = some b ∧
      s1 = VaultState.writeCredAt
        { (create_gcloud_configuration sc n).2.1 with adcSlot := some b }
        (profilePath n) b := by
  cases hc : create_clean_profile s n force with
  | err e s2 => simp [register, hc] at h
  | ok sc =>
    cases he : env.adcAfterLogin with
    | none => simp [register, hc, he] at h
    | some b =>
      refine ⟨sc, b, rfl, rfl, ?_⟩
      simp [register, hc, he] at h
      exact h.1.symm

theorem register_ok_state (s s1 : VaultState) (n : String) (force : Bool)
    (env : RegisterEnv) (tr : List VAction) (hn : n ≠ "")
    (h : register s ⟨n⟩ force env = (.ok s1, tr)) :
    ∃ b, env.adcAfterLogin = some b ∧
      s1.lookupEntry n = some (.dir n (some b)) ∧
      s1.configs.contains n = true ∧
      s1.activeConfig = some n ∧
      s1.adcSlot = some b := by
  obtain ⟨sc, b, hc, he, rfl⟩ := register_ok_inversion s s1 n force env tr h
  have hsc := create_clean_ok_lookup s sc n force hn hc
  have hcfg := create_gcloud_configuration_shape sc n
  have hwf := writeCredAt_frame
    { (create_gcloud_configuration sc n).2.1 with adcSlot := some b } (profilePath n) b
  refine ⟨b, he, ?_, ?_, ?_, ?_⟩
  · rw [profilePath, if_neg hn] at hwf ⊢
    rw [lookupEntry_writeCredAt]
    have hpe : ({ (create_gcloud_configuration sc n).2.1 with
        adcSlot := some b } : VaultState).lookupEntry n = some (.dir n none) := by
      rw [lookupEntry_eq_of_profiles _ sc (by simpa using hcfg.1) n]
      exact hsc
    rw [hpe]
    simp [Entry.fillCred]
  · rw [hwf.1]
    exact hcfg.2.2.2
  · rw [hwf.2.1]
    simpa using hcfg.2.2.1
  · rw [hwf.2.2]

theorem register_ok_state_root (s s1 : VaultState) (force : Bool)
    (env : RegisterEnv) (tr : List VAction)
    (h : register s ⟨""⟩ force env = (.ok s1, tr)) :
    ∃ b, env.adcAfterLogin = some b ∧
      s1.profiles = some [Entry.file ADC_FILENAME b] ∧
      s1.configs.contains "" = true ∧
      s1.adcSlot = some b := by
  obtain ⟨sc, b, hc, he, rfl⟩ := register_ok_inversion s s1 "" force env tr h
  have hsc := create_clean_ok_root s sc force hc
  have hcfg := create_gcloud_configuration_shape sc ""
  have hwf := writeCredAt_frame
    { (create_gcloud_configuration sc "").2.1 with adcSlot := some b } (profilePath "") b
  refine ⟨b, he, ?_, ?_, ?_⟩
  · simp only [profilePath, if_pos rfl] at hwf ⊢
    show (VaultState.writeCredAt _ .profilesRoot b).profiles = _
    simp only [VaultState.writeCredAt]
    have : ({ (create_gcloud_configuration sc "").2.1 with
        adcSlot := some b } : VaultState).profiles = some [] := by
      simpa [hcfg.1] using hsc
    rw [this]
    simp [upsertRootCred, ADC_FILENAME]
  · rw [hwf.1]
    exact hcfg.2.2.2
  · rw [hwf.2.2]

theorem switch_profiles (s : VaultState) (n : String) :
    (switch_gcloud_configuration s n).profiles = s.profiles := by
  unfold switch_gcloud_configuration
  split <;> rfl

theorem switch_adcSlot (s : VaultState) (n : String) :
    (switch_gcloud_configuration s n).adcSlot = s.adcSlot := by
  unfold switch_gcloud_configuration
  split <;> rfl

theorem switch_active_of_contains (s : VaultState) (n : String)
    (h : s.configs.contains n = true) :
    (switch_gcloud_configuration s n).activeConfig = some n := by
  unfold switch_gcloud_configuration
  rw [if_pos h]

theorem credBlob_eq_of_profiles (s t : VaultState) (h : s.profiles = t.profiles)
    (pd : ProfilePath) : s.credBlob pd = t.credBlob pd := by
  cases pd <;>
    simp [VaultState.credBlob, lookupEntry_eq_of_profiles s t h]

theorem create_clean_exists_noforce (s : VaultState) (n : String)
    (h : s.pathExists (profilePath n) = true) :
    create_clean_profile s n false = .err (.profileAlreadyExists n) s := by
  simp [create_clean_profile, h]

theorem create_clean_force_dir (s : VaultState) (n : String) (es : List Entry)
    (c : Option Blob) (hn : n ≠ "") (hp : s.profiles = some es)
    (hl : s.lookupEntry n = some (.dir n c)) :
    create_clean_profile s n true =
      .ok { s with
            profiles := some (es.filter (fun e => e.name ≠ n) ++ [Entry.dir n none]) } := by
  have hpe : s.pathExists (ProfilePath.entry n) = true := by
    simp [VaultState.pathExists, hl]
  simp [create_clean_profile, profilePath, hn, hpe, hl, hp]

theorem create_clean_root_force (s : VaultState) (es : List Entry)
    (hp : s.profiles = some es) :
    create_clean_profile s "" true = .ok { s with profiles := some [] } := by
  simp [create_clean_profile, profilePath, VaultState.pathExists, hp]

theorem create_clean_on_empty (s : VaultState) (n : String) (force : Bool)
    (hn : n ≠ "") (hp : s.profiles = some []) :
    create_clean_profile s n force =
      .ok { s with profiles := some [Entry.dir n none] } := by
  have hpe : s.pathExists (ProfilePath.entry n) = false := by
    simp [VaultState.pathExists, VaultState.lookupEntry, hp]
  simp [create_clean_profile, profilePath, hn, hpe, hp]

theorem create_clean_ok_credNone (s s1 : VaultState) (n : String) (force : Bool)
    (h : create_clean_profile s n force = .ok s1) :
    s1.credBlob (profilePath n) = none := by
  by_cases hn : n = ""
  · subst hn
    have hroot := create_clean_ok_root s s1 force h
    simp [profilePath, VaultState.credBlob, VaultState.lookupEntry, hroot]
  · have hl := create_clean_ok_lookup s s1 n force hn h
    simp [profilePath, hn, VaultState.credBlob, hl]

theorem delete_profile_notFound (s : VaultState) (n : String)
    (h : s.pathExists (profilePath n) = false) :
    delete_profile s n =
      .err (.profileNotFound n ((list_profiles s).map Profile.name)) s := by
  simp [delete_profile, h]

theorem delete_profile_dir (s : VaultState) (n : String) (es : List Entry)
    (c : Option Blob) (hn : n ≠ "") (hp : s.profiles = some es)
    (hl : s.lookupEntry n = some (.dir n c)) :
    delete_profile s n =
      .ok { s with profiles := some (es.filter (fun e => e.name ≠ n)) } := by
  have hpe : s.pathExists (ProfilePath.entry n) = true := by
    simp [VaultState.pathExists, hl]
  simp [delete_profile, profilePath, hn, hpe, hl, hp]

theorem delete_profile_file (s : VaultState) (n m : String) (c : Blob)
    (hn : n ≠ "") (hl : s.lookupEntry n = some (.file m c)) :
    delete_profile s n = .err (.notADirectory n) s := by
  have hpe : s.pathExists (ProfilePath.entry n) = true := by
    simp [VaultState.pathExists, hl]
  simp [delete_profile, profilePath, hn, hpe, hl]

theorem delete_profile_root (s : VaultState) (es : List Entry)
    (hp : s.profiles = some es) :
    delete_profile s "" = .ok { s with profiles := none } := by
  simp [delete_profile, profilePath, VaultState.pathExists, hp]

theorem set_active_ok_inversion (s s2 : VaultState) (n : String) (cf : Bool)
    (h : set_active_profile s n cf = .ok s2) :
    ∃ b, s.credBlob (profilePath n) = some b ∧
      s2 = { switch_gcloud_configuration s n with adcSlot := some b } := by
  by_cases hpe : s.pathExists (profilePath n) = true
  · by_cases hce : s.credEntryExists (profilePath n) = true
    · cases cf with
      | true => simp [set_active_profile, hpe, hce] at h
      | false =>
        have hpr : (switch_gcloud_configuration s n).credBlob (profilePath n) =
            s.credBlob (profilePath n) :=
          credBlob_eq_of_profiles _ s (switch_profiles s n) _
        cases hb : s.credBlob (profilePath n) with
        | none => simp [set_active_profile, hpe, hce, hpr, hb] at h
        | some b =>
          refine ⟨b, rfl, ?_⟩
          simp [set_active_profile, hpe, hce, hpr, hb] at h
          exact h.symm
    · rw [Bool.not_eq_true] at hce
      simp [set_active_profile, hpe, hce] at h
  · rw [Bool.not_eq_true] at hpe
    simp [set_active_profile, hpe] at h

theorem set_active_succeeds (s : VaultState) (n : String) (b : Blob)
    (hb : s.credBlob (profilePath n) = some b)
    (hce : s.credEntryExists (profilePath n) = true)
    (hpe : s.pathExists (profilePath n) = true) :
    set_active_profile s n false =
      .ok { switch_gcloud_configuration s n with adcSlot := some b } := by
  have hpr : (switch_gcloud_configuration s n).credBlob (profilePath n) =
      s.credBlob (profilePath n) :=
    credBlob_eq_of_profiles _ s (switch_profiles s n) _
  simp [set_active_profile, hpe, hce, hpr, hb]

/-- C3: `activate(n)` checks its preconditions in order — first that the
profile directory exists (failing fatally with `ProfileNotFound`, listing the
available profiles), then that the stored credential file exists (failing
fatally with `CredentialsMissing`) — and on either failure mutates nothing:
the state at exit is exactly the input state, so the Active Credential Slot
and the gcloud configuration are untouched. -/
theorem activate_checks_preconditions_in_order (s : VaultState) (n : String)
    (copyFails : Bool) :
    (s.pathExists (profilePath n) = false →
      set_active_profile s n copyFails =
        .err (.profileNotFound n ((list_profiles s).map Profile.name)) s) ∧
    (s.pathExists (profilePath n) = true →
      s.credEntryExists (profilePath n) = false →
      set_active_profile s n copyFails = .err (.credentialsMissing n) s) := by
  constructor
  · intro h
    simp [set_active_profile, h]
  · intro h1 h2
    simp [set_active_profile, h1, h2]

/-- Witness for C3: a vault holding only profile `b` rejects `activate("a")`
with `ProfileNotFound`, and a profile directory without a credential file
makes `activate("a")` fail with `CredentialsMissing`; both leave the state
unchanged. -/
theorem activate_checks_preconditions_in_order_witness :
    set_active_profile ⟨some [Entry.dir "b" (some [1])], [], none, none⟩ "a" false =
      .err (.profileNotFound "a" ["b"]) ⟨some [Entry.dir "b" (some [1])], [], none, none⟩ ∧
    set_active_profile ⟨some [Entry.dir "a" none], [], none, none⟩ "a" false =
      .err (.credentialsMissing "a") ⟨some [Entry.dir "a" none], [], none, none⟩ := by
  constructor
  · exact (activate_checks_preconditions_in_order
      ⟨some [Entry.dir "b" (some [1])], [], none, none⟩ "a" false).1 (by decide)
  · exact (activate_checks_preconditions_in_order
      ⟨some [Entry.dir "a" none], [], none, none⟩ "a" false).2 (by decide) (by decide)

/-- C8: when both `activate` preconditions hold and the gcloud configuration
exists, a failure of step (b) — copying the stored credential file over the
Active Credential Slot — is fatal (`copyFailed`), and it does not roll back
step (a): the error state has the gcloud configuration switched to `n` while
the Active Credential Slot and the vault are exactly as before. -/
theorem activate_copy_failure_no_rollback (s : VaultState) (n : String)
    (hp : s.pathExists (profilePath n) = true)
    (hc : s.credEntryExists (profilePath n) = true)
    (hg : s.configs.contains n = true) :
    set_active_profile s n true =
      .err .copyFailed { s with activeConfig := some n } := by
  have hg2 : n ∈ s.configs := by
    simpa using hg
  simp [set_active_profile, hp, hc, switch_gcloud_configuration, hg2]

/-- Witness for C8: with profile `a` vaulted and configuration `a` present, a
failing ADC copy leaves the configuration switched to `a` but the slot still
holding the old bytes. -/
theorem activate_copy_failure_no_rollback_witness :
    set_active_profile ⟨some [Entry.dir "a" (some [5])], ["a"], none, some [9]⟩ "a" true =
      .err .copyFailed ⟨some [Entry.dir "a" (some [5])], ["a"], some "a", some [9]⟩ :=
  activate_copy_failure_no_rollback
    ⟨some [Entry.dir "a" (some [5])], ["a"], none, some [9]⟩ "a"
    (by decide) (by decide) (by decide)

/-- C6 counterexample: a non-directory entry occupying `profiles/x` makes the
resolved path exist, yet `delete("x")` neither fails with `ProfileNotFound`
nor removes the entry — `shutil.rmtree` raises `NotADirectoryError` and the
state is unchanged, contradicting the claim's two-way case split. -/
theorem delete_nondirectory_counterexample :
    (⟨some [Entry.file "x" [0]], [], none, none⟩ : VaultState).pathExists
        (profilePath "x") = true ∧
    delete_profile ⟨some [Entry.file "x" [0]], [], none, none⟩ "x" =
      .err (.notADirectory "x") ⟨some [Entry.file "x" [0]], [], none, none⟩ := by
  decide

/-- C6 (amended): when the resolved path for `n` is absent, `delete(n)` fails
fatally with `ProfileNotFound` listing the available profiles and mutates
nothing; when a profile directory occupies it, `delete(n)` removes exactly
that directory, leaving every other entry, the Active Credential Slot and the
gcloud configuration unchanged; when a non-directory entry occupies it,
`delete(n)` fails (`NotADirectoryError`) without mutating. -/
theorem delete_profile_effects (s : VaultState) (n : String) :
    (s.pathExists (profilePath n) = false →
      delete_profile s n =
        .err (.profileNotFound n ((list_profiles s).map Profile.name)) s) ∧
    (∀ es c, n ≠ "" → s.profiles = some es →
      s.lookupEntry n = some (.dir n c) →
      delete_profile s n =
        .ok { s with profiles := some (es.filter (fun e => e.name ≠ n)) }) ∧
    (∀ m c, n ≠ "" → s.lookupEntry n = some (.file m c) →
      delete_profile s n = .err (.notADirectory n) s) := by
  refine ⟨fun h => delete_profile_notFound s n h, ?_, ?_⟩
  · intro es c hn hp hl
    exact delete_profile_dir s n es c hn hp hl
  · intro m c hn hl
    exact delete_profile_file s n m c hn hl

/-- Witness for C6 (amended): on a two-profile vault, `delete("missing")`
fails listing `a` and `b`, `delete("a")` removes exactly `profiles/a`, and a
plain file at `profiles/f` makes `delete("f")` fail without mutation. -/
theorem delete_profile_effects_witness :
    delete_profile ⟨some [Entry.dir "a" (some [1]), Entry.dir "b" none], ["a"], none, none⟩
        "missing" =
      .err (.profileNotFound "missing" ["a", "b"])
        ⟨some [Entry.dir "a" (some [1]), Entry.dir "b" none], ["a"], none, none⟩ ∧
    delete_profile ⟨some [Entry.dir "a" (some [1]), Entry.dir "b" none], ["a"], none, none⟩
        "a" =
      .ok ⟨some [Entry.dir "b" none], ["a"], none, none⟩ ∧
    delete_profile ⟨some [Entry.file "f" [2]], [], none, none⟩ "f" =
      .err (.notADirectory "f") ⟨some [Entry.file "f" [2]], [], none, none⟩ := by
  refine ⟨?_, ?_, ?_⟩
  · exact (delete_profile_effects
      ⟨some [Entry.dir "a" (some [1]), Entry.dir "b" none], ["a"], none, none⟩
      "missing").1 (by decide)
  · exact (delete_profile_effects
      ⟨some [Entry.dir "a" (some [1]), Entry.dir "b" none], ["a"], none, none⟩
      "a").2.1 [Entry.dir "a" (some [1]), Entry.dir "b" none] (some [1])
      (by decide) rfl rfl
  · exact (delete_profile_effects ⟨some [Entry.file "f" [2]], [], none, none⟩
      "f").2.2 "f" [2] (by decide) rfl

/-- C9: `delete` resolves `PROFILES_DIR / name` verbatim: for a single
ordinary path component naming a profile directory it removes exactly that
profile's subtree (all other entries and the rest of the state unchanged),
while for the empty-string name the resolved path is the profiles directory
itself, the existence precondition holds whenever the vault is initialised,
and the operation removes every profile in the vault. -/
theorem delete_path_resolution (s : VaultState) (n : String) :
    (isOrdinaryComponent n = true → ∀ es c, s.profiles = some es →
      s.lookupEntry n = some (.dir n c) →
      delete_profile s n =
        .ok { s with profiles := some (es.filter (fun e => e.name ≠ n)) }) ∧
    (∀ es, s.profiles = some es →
      s.pathExists (profilePath "") = true ∧
      delete_profile s "" = .ok { s with profiles := none }) := by
  constructor
  · intro hord es c hp hl
    have hn : n ≠ "" := by
      intro h
      rw [h] at hord
      simp [isOrdinaryComponent] at hord
    exact delete_profile_dir s n es c hn hp hl
  · intro es hp
    refine ⟨?_, delete_profile_root s es hp⟩
    simp [VaultState.pathExists, profilePath, hp]

/-- Witness for C9: deleting profile `a` keeps `b`; deleting the empty name
on the same vault removes the profiles directory wholesale. -/
theorem delete_path_resolution_witness :
    delete_profile ⟨some [Entry.dir "a" none, Entry.dir "b" none], [], none, none⟩ "a" =
      .ok ⟨some [Entry.dir "b" none], [], none, none⟩ ∧
    delete_profile ⟨some [Entry.dir "a" none, Entry.dir "b" none], [], none, none⟩ "" =
      .ok ⟨none, [], none, none⟩ := by
  constructor
  · exact (delete_path_resolution
      ⟨some [Entry.dir "a" none, Entry.dir "b" none], [], none, none⟩ "a").1
      (by decide) [Entry.dir "a" none, Entry.dir "b" none] none rfl rfl
  · exact ((delete_path_resolution
      ⟨some [Entry.dir "a" none, Entry.dir "b" none], [], none, none⟩ "x").2
      [Entry.dir "a" none, Entry.dir "b" none] rfl).2

/-- C7: `list()` never errors: an absent profiles directory yields the empty
list; otherwise the result holds exactly the names of the directory entries
(non-directory entries ignored); and after a successful `register("a")` on an
empty vault the listing is exactly `[Profile.mk "a"]`. -/
theorem list_profiles_total (s : VaultState) :
    (s.profiles = none → list_profiles s = []) ∧
    (∀ es, s.profiles = some es → ∀ p : Profile,
      p ∈ list_profiles s ↔ ∃ e ∈ es, e.isDir = true ∧ e.name = p.name) ∧
    (∀ force env s1 tr, s.profiles = some [] →
      register s ⟨"a"⟩ force env = (.ok s1, tr) →
      list_profiles s1 = [Profile.mk "a"]) := by
  refine ⟨?_, ?_, ?_⟩
  · intro h
    simp [list_profiles, h]
  · intro es hp p
    simp only [list_profiles, hp, List.mem_map, List.mem_filter]
    constructor
    · rintro ⟨e, ⟨he, hd⟩, rfl⟩
      exact ⟨e, he, hd, rfl⟩
    · rintro ⟨e, he, hd, hname⟩
      refine ⟨e, ⟨he, hd⟩, ?_⟩
      cases p
      simpa using hname
  · intro force env s1 tr hp hreg
    obtain ⟨sc, b, hc, he, rfl⟩ := register_ok_inversion s s1 "a" force env tr hreg
    have hsc : sc = { s with profiles := some [Entry.dir "a" none] } := by
      have hcc := create_clean_on_empty s "a" force (by decide) hp
      rw [hcc] at hc
      exact (OpResult.ok.inj hc).symm
    subst hsc
    have hcfgp := (create_gcloud_configuration_shape
      { s with profiles := some [Entry.dir "a" none] } "a").1
    have hpp : (VaultState.writeCredAt
        { (create_gcloud_configuration
            { s with profiles := some [Entry.dir "a" none] } "a").2.1
          with adcSlot := some b } (profilePath "a") b).profiles
        = some [Entry.dir "a" (some b)] := by
      rw [show profilePath "a" = ProfilePath.entry "a" from by decide]
      simp only [VaultState.writeCredAt]
      have hmid : ({ (create_gcloud_configuration
          { s with profiles := some [Entry.dir "a" none] } "a").2.1
          with adcSlot := some b } : VaultState).profiles
          = some [Entry.dir "a" none] := by
        simpa using hcfgp
      rw [hmid]
      simp [Entry.fillCred]
    simp [list_profiles, hpp, Entry.isDir, Entry.name]

/-- Witness for C7: a vault directory holding a profile directory and a stray
file lists only the profile; an absent directory lists nothing; registering
`a` on an empty vault lists exactly `a`. -/
theorem list_profiles_total_witness :
    list_profiles ⟨none, [], none, none⟩ = [] ∧
    (Profile.mk "a" ∈ list_profiles
        ⟨some [Entry.dir "a" none, Entry.file "x" [1]], [], none, none⟩ ↔
      ∃ e ∈ [Entry.dir "a" none, Entry.file "x" [1]],
        e.isDir = true ∧ e.name = "a") ∧
    list_profiles
      (register ⟨some [], [], none, none⟩ ⟨"a"⟩ false ⟨some [7]⟩).1.state =
      [Profile.mk "a"] := by
  refine ⟨?_, ?_, ?_⟩
  · exact (list_profiles_total ⟨none, [], none, none⟩).1 rfl
  · exact (list_profiles_total
      ⟨some [Entry.dir "a" none, Entry.file "x" [1]], [], none, none⟩).2.1
      [Entry.dir "a" none, Entry.file "x" [1]] rfl (Profile.mk "a")
  · exact (list_profiles_total ⟨some [], [], none, none⟩).2.2 false ⟨some [7]⟩
      ⟨some [Entry.dir "a" (some [7])], ["a"], some "a", some [7]⟩
      [VAction.configCreate "a", VAction.authLogin, VAction.adcLogin,
        VAction.captureAdc "a"] rfl (by decide)

theorem pathExists_of_lookup (s : VaultState) (n : String) (e : Entry)
    (h : s.lookupEntry n = some e) : s.pathExists (.entry n) = true := by
  simp [VaultState.pathExists, h]

theorem credBlob_of_lookup_dir (s : VaultState) (n m : String) (c : Option Blob)
    (h : s.lookupEntry n = some (.dir m c)) : s.credBlob (.entry n) = c := by
  simp [VaultState.credBlob, h]

theorem credEntry_of_lookup_dir (s : VaultState) (n m : String) (c : Option Blob)
    (h : s.lookupEntry n = some (.dir m c)) :
    s.credEntryExists (.entry n) = c.isSome := by
  simp [VaultState.credEntryExists, h]

theorem register_fst (s : VaultState) (p : Profile) (force : Bool)
    (env : RegisterEnv) :
    (register s p force env).1 =
      match create_clean_profile s p.name force with
      | .err e s1 => .err e s1
      | .ok s1 =>
        match env.adcAfterLogin with
        | none => .err .credentialsNotGenerated
            { (create_gcloud_configuration s1 p.name).2.1 with adcSlot := none }
        | some b => .ok (VaultState.writeCredAt
            { (create_gcloud_configuration s1 p.name).2.1 with adcSlot := some b }
            (profilePath p.name) b) := by
  cases hc : create_clean_profile s p.name force with
  | err e s1 => simp [register, hc]
  | ok s1 =>
    cases he : env.adcAfterLogin with
    | none => simp [register, hc, he]
    | some b => simp [register, hc, he]

theorem create_clean_err_already_pathExists (s t : VaultState) (n m : String)
    (f : Bool) (h : create_clean_profile s n f = .err (.profileAlreadyExists m) t) :
    s.pathExists (profilePath n) = true := by
  by_cases hpe : s.pathExists (profilePath n) = true
  · exact hpe
  · rw [Bool.not_eq_true] at hpe
    exfalso
    cases hpd : profilePath n with
    | profilesRoot =>
      rw [hpd] at hpe
      simp [create_clean_profile, hpd, hpe] at h
    | entry n2 =>
      rw [hpd] at hpe
      cases hp : s.profiles with
      | none => simp [create_clean_profile, hpd, hpe, hp] at h
      | some es => simp [create_clean_profile, hpd, hpe, hp] at h

theorem register_err_already (s t : VaultState) (n m : String) (f : Bool)
    (env : RegisterEnv)
    (h : (register s ⟨n⟩ f env).1 = .err (.profileAlreadyExists m) t) :
    create_clean_profile s n f = .err (.profileAlreadyExists m) t := by
  rw [register_fst] at h
  cases hc : create_clean_profile s n f with
  | err e s1 =>
    rw [hc] at h
    simp only [OpResult.err.injEq] at h
    rw [h.1, h.2]
  | ok s1 =>
    rw [hc] at h
    cases he : env.adcAfterLogin with
    | none =>
      rw [he] at h
      simp at h
    | some b =>
      rw [he] at h
      simp at h

theorem register_force_dir_succeeds (s : VaultState) (n : String) (b2 : Blob)
    (hn : n ≠ "") (es : List Entry) (c : Option Blob) (hp : s.profiles = some es)
    (hl : s.lookupEntry n = some (.dir n c)) :
    (register s ⟨n⟩ true ⟨some b2⟩).1.isOk = true ∧
    ((register s ⟨n⟩ true ⟨some b2⟩).1.state).credBlob (profilePath n) = some b2 := by
  have hc := create_clean_force_dir s n es c hn hp hl
  have hfst : (register s ⟨n⟩ true ⟨some b2⟩).1 =
      .ok (VaultState.writeCredAt
        { (create_gcloud_configuration
            { s with profiles := some (es.filter (fun e => e.name ≠ n)
                ++ [Entry.dir n none]) } n).2.1 with adcSlot := some b2 }
        (profilePath n) b2) := by
    rw [register_fst]
    rw [show (Profile.mk n).name = n from rfl, hc]
  refine ⟨by rw [hfst]; rfl, ?_⟩
  rw [hfst]
  rw [show profilePath n = ProfilePath.entry n from by simp [profilePath, hn]]
  have hlook : (VaultState.writeCredAt
      { (create_gcloud_configuration
          { s with profiles := some (es.filter (fun e => e.name ≠ n)
              ++ [Entry.dir n none]) } n).2.1 with adcSlot := some b2 }
      (.entry n) b2).lookupEntry n = some (Entry.dir n (some b2)) := by
    rw [lookupEntry_writeCredAt]
    have hmid : ({ (create_gcloud_configuration
        { s with profiles := some (es.filter (fun e => e.name ≠ n)
            ++ [Entry.dir n none]) } n).2.1 with adcSlot := some b2 }
        : VaultState).lookupEntry n = some (Entry.dir n none) := by
      rw [lookupEntry_eq_of_profiles _
        { s with profiles := some (es.filter (fun e => e.name ≠ n)
            ++ [Entry.dir n none]) }
        (by simpa using (create_gcloud_configuration_shape
          { s with profiles := some (es.filter (fun e => e.name ≠ n)
              ++ [Entry.dir n none]) } n).1) n]
      simp only [VaultState.lookupEntry, ne_eq, decide_not]
      exact find_name_filter_append es n (.dir n none) rfl
    rw [hmid]
    simp [Entry.fillCred]
  exact credBlob_of_lookup_dir _ n n (some b2) hlook

theorem credBlob_root_of_lookup_file (s : VaultState) (m : String) (b : Blob)
    (h : s.lookupEntry ADC_FILENAME = some (.file m b)) :
    s.credBlob .profilesRoot = some b := by
  simp [VaultState.credBlob, h]

theorem register_force_root_succeeds (s : VaultState) (b2 : Blob)
    (es : List Entry) (hp : s.profiles = some es) :
    (register s ⟨""⟩ true ⟨some b2⟩).1.isOk = true ∧
    ((register s ⟨""⟩ true ⟨some b2⟩).1.state).credBlob (profilePath "") = some b2 := by
  have hc := create_clean_root_force s es hp
  have hfst : (register s ⟨""⟩ true ⟨some b2⟩).1 =
      .ok (VaultState.writeCredAt
        { (create_gcloud_configuration
            { s with profiles := some [] } "").2.1 with adcSlot := some b2 }
        (profilePath "") b2) := by
    rw [register_fst]
    rw [show (Profile.mk "").name = "" from rfl, hc]
  refine ⟨by rw [hfst]; rfl, ?_⟩
  rw [hfst]
  rw [show profilePath "" = ProfilePath.profilesRoot from rfl]
  have hpp : (VaultState.writeCredAt
      { (create_gcloud_configuration
          { s with profiles := some [] } "").2.1 with adcSlot := some b2 }
      .profilesRoot b2).profiles = some [Entry.file ADC_FILENAME b2] := by
    simp only [VaultState.writeCredAt]
    have hmid : ({ (create_gcloud_configuration
        { s with profiles := some [] } "").2.1 with adcSlot := some b2 }
        : VaultState).profiles = some [] := by
      simpa using (create_gcloud_configuration_shape
        { s with profiles := some [] } "").1
    rw [hmid]
    simp [upsertRootCred]
  have hlookroot : (VaultState.writeCredAt
      { (create_gcloud_configuration
          { s with profiles := some [] } "").2.1 with adcSlot := some b2 }
      .profilesRoot b2).lookupEntry ADC_FILENAME =
      some (Entry.file ADC_FILENAME b2) := by
    simp [VaultState.lookupEntry, hpp, Entry.name]
  exact credBlob_root_of_lookup_file _ ADC_FILENAME b2 hlookroot

/-- C2: `register(n, force := false)` fails with `ProfileAlreadyExists` —
leaving the state exactly as it was — precisely when the resolved profile
path already exists; with `force` an existing profile directory is first
recursively deleted and recreated empty; and after any successful
`register(n)`, a second `register(n)` with `force` succeeds and replaces the
stored credential content with the freshly captured bytes. -/
theorem register_overwrite_guard (s : VaultState) (n : String) (env : RegisterEnv) :
    ((register s ⟨n⟩ false env).1 = .err (.profileAlreadyExists n) s ↔
      s.pathExists (profilePath n) = true) ∧
    (∀ es c, n ≠ "" → s.profiles = some es →
      s.lookupEntry n = some (.dir n c) →
      create_clean_profile s n true =
        .ok { s with
              profiles := some (es.filter (fun e => e.name ≠ n)
                ++ [Entry.dir n none]) }) ∧
    (∀ s1 tr b2, register s ⟨n⟩ false env = (.ok s1, tr) →
      (register s1 ⟨n⟩ true ⟨some b2⟩).1.isOk = true ∧
      ((register s1 ⟨n⟩ true ⟨some b2⟩).1.state).credBlob (profilePath n)
        = some b2) := by
  refine ⟨⟨?_, ?_⟩, ?_, ?_⟩
  · intro h
    exact create_clean_err_already_pathExists s s n n false
      (register_err_already s s n n false env h)
  · intro hpe
    rw [register_fst]
    rw [show (Profile.mk n).name = n from rfl, create_clean_exists_noforce s n hpe]
  · intro es c hn hp hl
    exact create_clean_force_dir s n es c hn hp hl
  · intro s1 tr b2 hreg
    by_cases hn : n = ""
    · subst hn
      obtain ⟨b1, _, hprof, _, _⟩ := register_ok_state_root s s1 false env tr hreg
      exact register_force_root_succeeds s1 b2 [Entry.file ADC_FILENAME b1] hprof
    · obtain ⟨b1, _, hlook, _, _, _⟩ := register_ok_state s s1 n false env tr hn hreg
      cases hps1 : s1.profiles with
      | none => simp [VaultState.lookupEntry, hps1] at hlook
      | some es1 =>
        exact register_force_dir_succeeds s1 n b2 hn es1 (some b1) hps1 hlook

/-- Witness for C2: registering `a` over an existing `profiles/a` without
force fails in place; with force the directory is recreated empty; and a
forced re-register replaces the stored bytes `[1]` with `[2]`. -/
theorem register_overwrite_guard_witness :
    (register ⟨some [Entry.dir "a" none], [], none, none⟩ ⟨"a"⟩ false ⟨some [1]⟩).1 =
      .err (.profileAlreadyExists "a") ⟨some [Entry.dir "a" none], [], none, none⟩ ∧
    create_clean_profile ⟨some [Entry.dir "a" (some [1])], ["a"], some "a", some [1]⟩
        "a" true =
      .ok ⟨some [Entry.dir "a" none], ["a"], some "a", some [1]⟩ ∧
    ((register ⟨some [Entry.dir "a" (some [1])], ["a"], some "a", some [1]⟩
        ⟨"a"⟩ true ⟨some [2]⟩).1.isOk = true ∧
      ((register ⟨some [Entry.dir "a" (some [1])], ["a"], some "a", some [1]⟩
        ⟨"a"⟩ true ⟨some [2]⟩).1.state).credBlob (profilePath "a") = some [2]) := by
  refine ⟨?_, ?_, ?_⟩
  · exact (register_overwrite_guard ⟨some [Entry.dir "a" none], [], none, none⟩ "a"
      ⟨some [1]⟩).1.mpr (by decide)
  · exact (register_overwrite_guard
      ⟨some [Entry.dir "a" (some [1])], ["a"], some "a", some [1]⟩ "a" ⟨some [1]⟩).2.1
      [Entry.dir "a" (some [1])] (some [1]) (by decide) rfl rfl
  · exact (register_overwrite_guard ⟨some [], [], none, none⟩ "a" ⟨some [1]⟩).2.2
      ⟨some [Entry.dir "a" (some [1])], ["a"], some "a", some [1]⟩
      [VAction.configCreate "a", VAction.authLogin, VAction.adcLogin,
        VAction.captureAdc "a"]
      [2] (by decide)

theorem register_snd (s : VaultState) (p : Profile) (force : Bool)
    (env : RegisterEnv) :
    (register s p force env).2 =
      match create_clean_profile s p.name force with
      | .err _ _ => []
      | .ok s1 =>
        ((if (create_gcloud_configuration s1 p.name).1
            then (create_gcloud_configuration s1 p.name).2.2 ++ [.authLogin]
            else (create_gcloud_configuration s1 p.name).2.2) ++ [.adcLogin])
          ++ (match env.adcAfterLogin with
              | none => []
              | some _ => [.captureAdc p.name]) := by
  cases hc : create_clean_profile s p.name force with
  | err e t => simp [register, hc]
  | ok s1 =>
    cases he : env.adcAfterLogin with
    | none => simp [register, hc, he]
    | some b => simp [register, hc, he]

/-- C1: a successful `activate(n)` — for a name whose gcloud configuration
exists, as registration guarantees — leaves the Active Credential Slot a
byte-for-byte copy of the profile's vaulted credential file and switches the
gcloud configuration to `n` in the same operation; in particular after
`register("a")` followed by `activate("a")` the slot content equals the
vaulted copy under `profiles/a`. -/
theorem activate_round_trip_exact_copy (s : VaultState) :
    (∀ n cf s2, s.configs.contains n = true →
      set_active_profile s n cf = .ok s2 →
      s2.adcSlot = s.credBlob (profilePath n) ∧
      s2.credBlob (profilePath n) = s.credBlob (profilePath n) ∧
      s2.adcSlot.isSome = true ∧
      s2.activeConfig = some n) ∧
    (∀ force env s1 tr, register s ⟨"a"⟩ force env = (.ok s1, tr) →
      ∃ s2, set_active_profile s1 "a" false = .ok s2 ∧
        s2.adcSlot = s2.credBlob (profilePath "a") ∧
        s2.activeConfig = some "a") := by
  constructor
  · intro n cf s2 hg h
    obtain ⟨b, hb, rfl⟩ := set_active_ok_inversion s s2 n cf h
    refine ⟨?_, ?_, ?_, ?_⟩
    · rw [hb]
    · exact credBlob_eq_of_profiles _ s (switch_profiles s n) _
    · rfl
    · show (switch_gcloud_configuration s n).activeConfig = some n
      exact switch_active_of_contains s n hg
  · intro force env s1 tr hreg
    obtain ⟨b, _, hlook, hcont, _, _⟩ :=
      register_ok_state s s1 "a" force env tr (by decide) hreg
    have hpd : profilePath "a" = ProfilePath.entry "a" := by decide
    have hb : s1.credBlob (profilePath "a") = some b := by
      rw [hpd]
      exact credBlob_of_lookup_dir s1 "a" "a" (some b) hlook
    have hce : s1.credEntryExists (profilePath "a") = true := by
      rw [hpd, credEntry_of_lookup_dir s1 "a" "a" (some b) hlook]
      rfl
    have hpe : s1.pathExists (profilePath "a") = true := by
      rw [hpd]
      exact pathExists_of_lookup s1 "a" _ hlook
    refine ⟨_, set_active_succeeds s1 "a" b hb hce hpe, ?_, ?_⟩
    · have hpr : ({ switch_gcloud_configuration s1 "a" with adcSlot := some b }
          : VaultState).credBlob (profilePath "a") = s1.credBlob (profilePath "a") :=
        credBlob_eq_of_profiles
          { switch_gcloud_configuration s1 "a" with adcSlot := some b } s1
          (switch_profiles s1 "a") (profilePath "a")
      rw [hpr, hb]
    · show (switch_gcloud_configuration s1 "a").activeConfig = some "a"
      exact switch_active_of_contains s1 "a" hcont

/-- Witness for C1: with profile `a` vaulted (bytes `[7]`) and configuration
`a` present, activation succeeds, copies `[7]` into the slot and switches the
configuration; the same holds for the state produced by `register("a")` on an
empty vault. -/
theorem activate_round_trip_exact_copy_witness :
    ((⟨some [Entry.dir "a" (some [7])], ["a"], some "a", some [7]⟩ : VaultState).adcSlot =
      (⟨some [Entry.dir "a" (some [7])], ["a"], none, none⟩ : VaultState).credBlob
        (profilePath "a") ∧
     (⟨some [Entry.dir "a" (some [7])], ["a"], some "a", some [7]⟩ : VaultState).activeConfig =
      some "a") ∧
    (∃ s2, set_active_profile
        ⟨some [Entry.dir "a" (some [7])], ["a"], some "a", some [7]⟩ "a" false = .ok s2 ∧
      s2.adcSlot = s2.credBlob (profilePath "a") ∧
      s2.activeConfig = some "a") := by
  constructor
  · have h := (activate_round_trip_exact_copy
      ⟨some [Entry.dir "a" (some [7])], ["a"], none, none⟩).1 "a" false
      ⟨some [Entry.dir "a" (some [7])], ["a"], some "a", some [7]⟩ (by decide) (by decide)
    exact ⟨h.1, h.2.2.2⟩
  · exact (activate_round_trip_exact_copy ⟨some [], [], none, none⟩).2 false ⟨some [7]⟩
      ⟨some [Entry.dir "a" (some [7])], ["a"], some "a", some [7]⟩
      [VAction.configCreate "a", VAction.authLogin, VAction.adcLogin,
        VAction.captureAdc "a"]
      (by decide)

/-- C4: once step 1 of `register` has produced a clean profile directory,
an already-existing gcloud configuration is activated with a warning and the
standard CLI login (`gcloud auth login`) is skipped, while a fresh
configuration triggers the full login; the ADC login and the capture of its
file into the profile directory occur on every successful `register`, in both
branches. -/
theorem register_skips_login_when_config_exists (s s1 : VaultState) (p : Profile)
    (force : Bool) (env : RegisterEnv)
    (h : create_clean_profile s p.name force = .ok s1) :
    (s.configs.contains p.name = true →
      VAction.configActivate p.name ∈ (register s p force env).2 ∧
      VAction.warnConfigExists p.name ∈ (register s p force env).2 ∧
      VAction.authLogin ∉ (register s p force env).2) ∧
    (s.configs.contains p.name = false →
      VAction.authLogin ∈ (register s p force env).2) ∧
    ((register s p force env).1.isOk = true →
      VAction.adcLogin ∈ (register s p force env).2 ∧
      VAction.captureAdc p.name ∈ (register s p force env).2) := by
  have hcfg : s1.configs = s.configs := (create_clean_ok_frame s s1 p.name force h).1
  refine ⟨?_, ?_, ?_⟩
  · intro hin
    rw [register_snd, h]
    have hin2 : p.name ∈ s1.configs := by
      rw [hcfg]
      simpa using hin
    cases he : env.adcAfterLogin <;>
      simp [create_gcloud_configuration, hin2, he]
  · intro hin
    rw [register_snd, h]
    have hin2 : p.name ∉ s1.configs := by
      rw [hcfg]
      simpa using hin
    cases he : env.adcAfterLogin <;>
      simp [create_gcloud_configuration, hin2, he]
  · intro hok
    cases he : env.adcAfterLogin with
    | none =>
      rw [register_fst, h, he] at hok
      simp [OpResult.isOk] at hok
    | some b =>
      rw [register_snd, h, he]
      constructor <;> simp

/-- Witness for C4: registering `a` when configuration `a` already exists
activates it, warns and skips `gcloud auth login`; on a fresh configuration
the standard login runs; in both cases the ADC login and the capture into the
profile run. -/
theorem register_skips_login_when_config_exists_witness :
    (VAction.configActivate "a" ∈
        (register ⟨some [], ["a"], none, none⟩ ⟨"a"⟩ false ⟨some [3]⟩).2 ∧
      VAction.warnConfigExists "a" ∈
        (register ⟨some [], ["a"], none, none⟩ ⟨"a"⟩ false ⟨some [3]⟩).2 ∧
      VAction.authLogin ∉
        (register ⟨some [], ["a"], none, none⟩ ⟨"a"⟩ false ⟨some [3]⟩).2) ∧
    VAction.authLogin ∈
      (register ⟨some [], [], none, none⟩ ⟨"a"⟩ false ⟨some [3]⟩).2 ∧
    (VAction.adcLogin ∈
        (register ⟨some [], ["a"], none, none⟩ ⟨"a"⟩ false ⟨some [3]⟩).2 ∧
      VAction.captureAdc "a" ∈
        (register ⟨some [], ["a"], none, none⟩ ⟨"a"⟩ false ⟨some [3]⟩).2) := by
  refine ⟨?_, ?_, ?_⟩
  · exact (register_skips_login_when_config_exists
      ⟨some [], ["a"], none, none⟩ ⟨some [Entry.dir "a" none], ["a"], none, none⟩
      ⟨"a"⟩ false ⟨some [3]⟩ (by decide)).1 (by decide)
  · exact (register_skips_login_when_config_exists
      ⟨some [], [], none, none⟩ ⟨some [Entry.dir "a" none], [], none, none⟩
      ⟨"a"⟩ false ⟨some [3]⟩ (by decide)).2.1 (by decide)
  · exact (register_skips_login_when_config_exists
      ⟨some [], ["a"], none, none⟩ ⟨some [Entry.dir "a" none], ["a"], none, none⟩
      ⟨"a"⟩ false ⟨some [3]⟩ (by decide)).2.2 (by decide)

/-- C5: if after the ADC login the credential file at the fixed path is
absent, `register` terminates with the fatal `CredentialsNotGenerated` error
before any copy into the profile directory: the capture action never happens
and the profile directory holds no credential file in the exit state. -/
theorem register_adc_missing_fatal (s s1 : VaultState) (p : Profile) (force : Bool)
    (env : RegisterEnv) (hadc : env.adcAfterLogin = none)
    (h : create_clean_profile s p.name force = .ok s1) :
    (register s p force env).1 =
      .err .credentialsNotGenerated
        { (create_gcloud_configuration s1 p.name).2.1 with adcSlot := none } ∧
    VAction.captureAdc p.name ∉ (register s p force env).2 ∧
    ((register s p force env).1.state).credBlob (profilePath p.name) = none := by
  have h1 : (register s p force env).1 = .err .credentialsNotGenerated
      { (create_gcloud_configuration s1 p.name).2.1 with adcSlot := none } := by
    rw [register_fst, h, hadc]
  refine ⟨h1, ?_, ?_⟩
  · rw [register_snd, h, hadc]
    by_cases hin : p.name ∈ s1.configs <;>
      simp [create_gcloud_configuration, hin]
  · rw [h1]
    show ({ (create_gcloud_configuration s1 p.name).2.1 with adcSlot := none }
      : VaultState).credBlob (profilePath p.name) = none
    rw [credBlob_eq_of_profiles
      { (create_gcloud_configuration s1 p.name).2.1 with adcSlot := none } s1
      ((create_gcloud_configuration_shape s1 p.name).1) (profilePath p.name)]
    exact create_clean_ok_credNone s s1 p.name force h

/-- Witness for C5: registering `a` on an empty vault with an ADC login that
leaves no file fails with `CredentialsNotGenerated`, performs no capture, and
leaves `profiles/a` without a credential file. -/
theorem register_adc_missing_fatal_witness :
    (register ⟨some [], [], none, none⟩ ⟨"a"⟩ false ⟨none⟩).1 =
      .err .credentialsNotGenerated ⟨some [Entry.dir "a" none], ["a"], some "a", none⟩ ∧
    VAction.captureAdc "a" ∉ (register ⟨some [], [], none, none⟩ ⟨"a"⟩ false ⟨none⟩).2 ∧
    ((register ⟨some [], [], none, none⟩ ⟨"a"⟩ false ⟨none⟩).1.state).credBlob
      (profilePath "a") = none := by
  have h := register_adc_missing_fatal ⟨some [], [], none, none⟩
    ⟨some [Entry.dir "a" none], [], none, none⟩ ⟨"a"⟩ false ⟨none⟩ rfl (by decide)
  exact ⟨h.1, h.2.1, h.2.2⟩

/-- C10: `register(n, force := true)` on an existing profile is not atomic:
the stored credential is deleted in step 1, so when the ADC file is absent
after login the operation exits with `CredentialsNotGenerated` leaving the
profile directory present but holding no credential file, the prior bytes
gone. -/
theorem force_register_not_atomic (s : VaultState) (n : String) (b0 : Blob)
    (es : List Entry) (env : RegisterEnv) (hn : n ≠ "")
    (hp : s.profiles = some es)
    (hl : s.lookupEntry n = some (.dir n (some b0)))
    (hadc : env.adcAfterLogin = none) :
    ∃ s3, (register s ⟨n⟩ true env).1 = .err .credentialsNotGenerated s3 ∧
      s3.pathExists (profilePath n) = true ∧
      s3.lookupEntry n = some (.dir n none) ∧
      s3.credBlob (profilePath n) = none := by
  have hc := create_clean_force_dir s n es (some b0) hn hp hl
  set S1 : VaultState :=
    { s with profiles := some (es.filter (fun e => e.name ≠ n) ++ [Entry.dir n none]) }
    with hS1def
  have hlookS1 : S1.lookupEntry n = some (Entry.dir n none) :=
    create_clean_ok_lookup s S1 n true hn hc
  have hXlook : ({ (create_gcloud_configuration S1 n).2.1 with adcSlot := none }
      : VaultState).lookupEntry n = some (Entry.dir n none) := by
    rw [lookupEntry_eq_of_profiles
      { (create_gcloud_configuration S1 n).2.1 with adcSlot := none } S1
      ((create_gcloud_configuration_shape S1 n).1) n]
    exact hlookS1
  refine ⟨{ (create_gcloud_configuration S1 n).2.1 with adcSlot := none },
    ?_, ?_, ?_, ?_⟩
  · rw [register_fst, show (Profile.mk n).name = n from rfl, hc, hadc]
  · rw [show profilePath n = ProfilePath.entry n from by simp [profilePath, hn]]
    exact pathExists_of_lookup _ n (.dir n none) hXlook
  · exact hXlook
  · rw [show profilePath n = ProfilePath.entry n from by simp [profilePath, hn]]
    exact credBlob_of_lookup_dir _ n n none hXlook

/-- Witness for C10: forcing re-registration of `a` (stored bytes `[1]`) with
a silently failing ADC login ends in `CredentialsNotGenerated` with
`profiles/a` present but empty. -/
theorem force_register_not_atomic_witness :
    (register ⟨some [Entry.dir "a" (some [1])], ["a"], none, none⟩ ⟨"a"⟩ true ⟨none⟩).1 =
      .err .credentialsNotGenerated ⟨some [Entry.dir "a" none], ["a"], some "a", none⟩ ∧
    (⟨some [Entry.dir "a" none], ["a"], some "a", none⟩ : VaultState).lookupEntry "a" =
      some (Entry.dir "a" none) := by
  obtain ⟨s3, h1, _, h3, _⟩ := force_register_not_atomic
    ⟨some [Entry.dir "a" (some [1])], ["a"], none, none⟩ "a" [1]
    [Entry.dir "a" (some [1])] ⟨none⟩ (by decide) rfl (by decide) rfl
  have hs3 : s3 = ⟨some [Entry.dir "a" none], ["a"], some "a", none⟩ := by
    have := h1
    rw [show (register ⟨some [Entry.dir "a" (some [1])], ["a"], none, none⟩
        ⟨"a"⟩ true ⟨none⟩).1 =
      .err .credentialsNotGenerated
        ⟨some [Entry.dir "a" none], ["a"], some "a", none⟩ from by decide] at this
    exact (OpResult.err.inj this.symm).2
  constructor
  · rw [h1, hs3]
  · rw [← hs3]
    exact h3
